import Mathlib

/-!
Shallow embedding of the Vihaya SDK (TypeScript) pricing, promo, roster and
HTTP-client logic, with theorems checking the natural-language specification
against it.

JavaScript numbers are modelled as rationals (`ℚ`); optional TS fields become
`Option`; JS falsiness of strings/numbers is modelled explicitly where the
source relies on it (`x || d`, `!s`).
-/

namespace Vihaya

/-- A promo code as used by the form: `code` (matched case-insensitively),
`type` (the source only tests `type === 'percentage'`), `value`, `isActive`. -/
structure PromoCode where
  code : String
  type : String
  value : ℚ
  isActive : Bool
deriving DecidableEq

/-- A special pricing tier (`SpecialPrice` in index.ts). -/
structure SpecialPrice where
  name : String
  amount : ℚ
deriving DecidableEq

/-- The fields of `VihayaEvent` that the registration form reads.  Optional
TS fields are `Option`; the optional booleans are plain `Bool` because every
use in the source is a truthiness test, where `undefined` and `false`
coincide. -/
structure VihayaEvent where
  title : String
  price : ℚ
  isFree : Bool
  hasSpecialPrices : Bool
  specialPrices : Option (List SpecialPrice)
  promoCodes : Option (List PromoCode)
  hasPlatformFee : Bool
  passPlatformFeeToUser : Bool
  platformFeeType : Option String
  platformFee : Option ℚ
deriving DecidableEq

/-- JS `x || d` on a number already known to be defined: falsy iff zero. -/
def jsNumOr (x d : ℚ) : ℚ := if x = 0 then d else x

/-- JS truthiness of a `string | null` value: `null` and `""` are falsy. -/
def strTruthy : Option String → Bool
  | none => false
  | some s => !(s = "")

/-- `activePricing` memo: when a tier name is selected (truthy) and the event
has a `specialPrices` array, find the tier with that name, else `null`. -/
def activePricing (e : Option VihayaEvent) (sel : Option String) : Option SpecialPrice :=
  match e with
  | none => none
  | some ev =>
    if strTruthy sel then
      match ev.specialPrices with
      | some ps => ps.find? (fun p => p.name = (sel.getD ""))
      | none => none
    else none

/-- `baseAmount` memo: 0 with no event; the active tier's `amount` when one is
resolved; else `event.price || 0`. -/
def baseAmount (e : Option VihayaEvent) (sel : Option String) : ℚ :=
  match e with
  | none => 0
  | some ev =>
    match activePricing e sel with
    | some p => p.amount
    | none => jsNumOr ev.price 0

/-- `discountAmount` memo: 0 with no applied promo; `base * value / 100` for a
percentage promo; the raw `value` otherwise. -/
def discountAmount (applied : Option PromoCode) (base : ℚ) : ℚ :=
  match applied with
  | none => 0
  | some p => if p.type = "percentage" then base * p.value / 100 else p.value

/-- `subtotal = Math.max(0, baseAmount - discountAmount)`. -/
def subtotal (e : Option VihayaEvent) (sel : Option String) (applied : Option PromoCode) : ℚ :=
  max 0 (baseAmount e sel - discountAmount applied (baseAmount e sel))

/-- `platformFeeAmount` memo: 0 unless the event has both `hasPlatformFee` and
`passPlatformFeeToUser`; then `subtotal * (platformFee || 0) / 100` for a
percentage fee type, else `platformFee || 0`. -/
def platformFeeAmount (e : Option VihayaEvent) (sub : ℚ) : ℚ :=
  match e with
  | none => 0
  | some ev =>
    if !ev.hasPlatformFee || !ev.passPlatformFeeToUser then 0
    else if ev.platformFeeType = some "percentage" then
      sub * jsNumOr (ev.platformFee.getD 0) 0 / 100
    else jsNumOr (ev.platformFee.getD 0) 0

/-- `totalAmount = subtotal + platformFeeAmount`. -/
def totalAmount (e : Option VihayaEvent) (sel : Option String) (applied : Option PromoCode) : ℚ :=
  subtotal e sel applied + platformFeeAmount e (subtotal e sel applied)

/-- One row of the team-member roster. -/
structure TeamMember where
  name : String
  email : String
  phone : String
deriving DecidableEq

/-- The pieces of the form component's state that the promo handler reads and
writes (`event`, `promoCode`, `appliedPromo`, `error`). -/
structure FormState where
  event : Option VihayaEvent
  promoCode : String
  appliedPromo : Option PromoCode
  error : Option String
deriving DecidableEq

/-- The error string set by `handleApplyPromo` on a failed lookup. -/
def invalidPromoMsg : String := "Invalid or inactive promo code."

/-- `handleApplyPromo`: return unchanged unless an event is loaded and the
entered code is truthy (non-empty); then find an active promo whose code
matches case-insensitively; on a hit set it and clear the error, on a miss
set the error and clear the applied promo. -/
def handleApplyPromo (st : FormState) : FormState :=
  match st.event with
  | none => st
  | some ev =>
    if st.promoCode = "" then st
    else
      match (ev.promoCodes.getD []).find?
          (fun c => c.code.toUpper == st.promoCode.toUpper && c.isActive) with
      | some c => { st with appliedPromo := some c, error := none }
      | none => { st with error := some invalidPromoMsg, appliedPromo := none }

/-- `handleAddTeamMember`: `[...(prev.teamMembers || []), blank]`. -/
def handleAddTeamMember (members : Option (List TeamMember)) : List TeamMember :=
  members.getD [] ++ [⟨"", "", ""⟩]

/-- `handleRemoveTeamMember`: copy then `splice(index, 1)`, which for a
natural index removes the element at that position when it exists. -/
def handleRemoveTeamMember (members : Option (List TeamMember)) (i : Nat) : List TeamMember :=
  (members.getD []).eraseIdx i

/-- The submit button's `disabled` attribute:
`submitting || (event.hasSpecialPrices && !selectedPriceName && !event.isFree)`. -/
def submitDisabled (submitting : Bool) (ev : VihayaEvent) (sel : Option String) : Bool :=
  submitting || (ev.hasSpecialPrices && !(strTruthy sel) && !ev.isFree)

/-! ## The HTTP client (`VihayaClient.request`) -/

/-- The header object built by `request`: SDK defaults first, then the
configured extra headers, then per-call headers; in a JS object literal a
later entry overrides an earlier one with the same key. -/
def requestHeaders (apiKey : String) (extraHeaders optionHeaders : List (String × String)) :
    List (String × String) :=
  [("x-api-key", apiKey), ("Content-Type", "application/json")] ++ extraHeaders ++ optionHeaders

/-- The value a key ends up with in a JS object literal built from the given
entries in order: the last write wins. -/
def headerValue (hs : List (String × String)) (k : String) : Option String :=
  (hs.reverse.find? (fun p => p.1 = k)).map Prod.snd

/-- The decoded JSON body of a response, reduced to the fields the client
reads (`error`) plus an opaque remainder standing for the rest of the body. -/
structure ApiBody where
  error : Option String
  rest : String
deriving DecidableEq

/-- An HTTP response as `request` consumes it. -/
structure HttpResponse where
  ok : Bool
  status : Nat
  body : ApiBody
deriving DecidableEq

/-- `VihayaError`: message, HTTP status, decoded body. -/
structure VihayaError where
  message : String
  status : Option Nat
  data : Option ApiBody
deriving DecidableEq

/-- JS `s || d` for an optional string: `undefined` and `""` are falsy. -/
def jsStrOr (o : Option String) (d : String) : String :=
  match o with
  | none => d
  | some s => if s = "" then d else s

/-- The generic fallback message of `request`. -/
def genericApiErrorMsg : String := "Vihaya API Error"

/-- The response-handling tail of `VihayaClient.request`: return the decoded
body on `response.ok`, else throw `VihayaError(data.error || generic,
response.status, data)`. -/
def request (resp : HttpResponse) : Except VihayaError ApiBody :=
  if resp.ok then .ok resp.body
  else .error ⟨jsStrOr resp.body.error genericApiErrorMsg, some resp.status, some resp.body⟩

/-- The form's `catch` block hands `err.message` to `setError` and `onError`. -/
def formErrorMessage (e : VihayaError) : String := e.message

/-! ## The submission flow (`handleSubmit`) -/

/-- The result of `events.register` as `handleSubmit` reads it. -/
structure RegisterResult where
  registrationId : String
  orderId : Option String
  amount : ℚ
  currency : String
  key : String
deriving DecidableEq

/-- The payment response handed to the Razorpay success handler. -/
structure PaymentResponse where
  razorpay_payment_id : String
  razorpay_order_id : String
deriving DecidableEq

/-- Observable steps of one submission, in order: the initial register call,
opening the checkout widget, the confirmation register call (carrying the
payment id, order id and registration id it sends), and the caller-facing
callbacks. -/
inductive SubmitEvent where
  | registerCall : SubmitEvent
  | openCheckout (key : String) (amount : ℚ) (currency : String) (orderId : String) : SubmitEvent
  | confirmCall (paymentId orderId registrationId : String) : SubmitEvent
  | successCb (registrationId : String) : SubmitEvent
  | errorCb (msg : String) : SubmitEvent
deriving DecidableEq

/-- The configuration error thrown when `window.Razorpay` is absent. -/
def razorpayMissingMsg : String :=
  "Razorpay SDK not loaded. Please include <script src=\"https://checkout.razorpay.com/v1/checkout.js\"></script>"

/-- The trace of one `handleSubmit` run, given the outcome of the first
`events.register` call, whether the checkout script is loaded, and — when the
widget's success handler fires with `payResp` — the outcome of the
confirmation `events.register` call.  Errors reach the `catch` blocks, which
surface `err.message` through `onError`. -/
def handleSubmitTrace (firstResult : Except VihayaError RegisterResult)
    (razorpayLoaded : Bool) (payResp : PaymentResponse)
    (confirmResult : Except VihayaError ApiBody) : List SubmitEvent :=
  match firstResult with
  | .error e => [.registerCall, .errorCb e.message]
  | .ok r =>
    match r.orderId with
    | none => [.registerCall, .successCb r.registrationId]
    | some oid =>
      if !razorpayLoaded then [.registerCall, .errorCb razorpayMissingMsg]
      else
        [.registerCall, .openCheckout r.key r.amount r.currency oid,
         .confirmCall payResp.razorpay_payment_id payResp.razorpay_order_id r.registrationId] ++
        match confirmResult with
        | .ok _ => [.successCb r.registrationId]
        | .error e => [.errorCb e.message]

/-! ## Helper lemmas -/

lemma jsNumOr_zero (x : ℚ) : jsNumOr x 0 = x := by
  unfold jsNumOr
  split
  · next h => exact h.symm
  · rfl

lemma platformFeeAmount_some (ev : VihayaEvent) (sub : ℚ) :
    platformFeeAmount (some ev) sub
      = if !ev.hasPlatformFee || !ev.passPlatformFeeToUser then 0
        else if ev.platformFeeType = some "percentage" then
          sub * jsNumOr (ev.platformFee.getD 0) 0 / 100
        else jsNumOr (ev.platformFee.getD 0) 0 := rfl

lemma headerValue_append (l1 l2 : List (String × String)) (k : String) :
    headerValue (l1 ++ l2) k = (headerValue l2 k).or (headerValue l1 k) := by
  unfold headerValue
  rw [List.reverse_append, List.find?_append]
  cases l2.reverse.find? (fun p => p.1 = k) <;> simp [Option.or]

lemma headerValue_eq_none (l : List (String × String)) (k : String)
    (h : ∀ p ∈ l, p.1 ≠ k) : headerValue l k = none := by
  have hf : l.reverse.find? (fun p => p.1 = k) = none := by
    rw [List.find?_eq_none]
    intro x hx
    simpa using h x (List.mem_reverse.mp hx)
  simp [headerValue, hf]

end Vihaya

open Vihaya

/-- C1: for every loaded event, tier selection and applied promo, `baseAmount`
is the resolved tier's `amount`, else the event's `price`; `discountAmount` is
0 with no promo, the promo's `value` for a flat promo and
`baseAmount * value / 100` for a percentage promo; `subtotal` is
`max 0 (baseAmount - discountAmount)`; `platformFeeAmount` is 0 unless the
event has both `hasPlatformFee` and `passPlatformFeeToUser`, in which case it
is the flat `platformFee`, or `subtotal * platformFee / 100` when the fee type
is percentage; and `totalAmount = subtotal + platformFeeAmount`. -/
theorem pricing_breakdown_spec (ev : VihayaEvent) (sel : Option String)
    (applied : Option PromoCode) :
    (∀ p, activePricing (some ev) sel = some p → baseAmount (some ev) sel = p.amount) ∧
    (activePricing (some ev) sel = none → baseAmount (some ev) sel = ev.price) ∧
    (applied = none → discountAmount applied (baseAmount (some ev) sel) = 0) ∧
    (∀ p, applied = some p → p.type = "flat" →
      discountAmount applied (baseAmount (some ev) sel) = p.value) ∧
    (∀ p, applied = some p → p.type = "percentage" →
      discountAmount applied (baseAmount (some ev) sel)
        = baseAmount (some ev) sel * p.value / 100) ∧
    (subtotal (some ev) sel applied
      = max 0 (baseAmount (some ev) sel - discountAmount applied (baseAmount (some ev) sel))) ∧
    (¬(ev.hasPlatformFee = true ∧ ev.passPlatformFeeToUser = true) →
      platformFeeAmount (some ev) (subtotal (some ev) sel applied) = 0) ∧
    (ev.hasPlatformFee = true → ev.passPlatformFeeToUser = true →
      (ev.platformFeeType = some "percentage" →
        platformFeeAmount (some ev) (subtotal (some ev) sel applied)
          = subtotal (some ev) sel applied * ev.platformFee.getD 0 / 100) ∧
      (ev.platformFeeType ≠ some "percentage" →
        platformFeeAmount (some ev) (subtotal (some ev) sel applied) = ev.platformFee.getD 0)) ∧
    (totalAmount (some ev) sel applied
      = subtotal (some ev) sel applied
          + platformFeeAmount (some ev) (subtotal (some ev) sel applied)) := by
  refine ⟨?_, ?_, ?_, ?_, ?_, rfl, ?_, ?_, rfl⟩
  · intro p hp
    simp [baseAmount, hp]
  · intro hp
    simp [baseAmount, hp, jsNumOr_zero]
  · intro h
    simp [discountAmount, h]
  · intro p hp ht
    simp [discountAmount, hp, ht]
  · intro p hp ht
    simp [discountAmount, hp, ht]
  · intro h
    rcases Bool.eq_false_or_eq_true ev.hasPlatformFee with hpf | hpf <;>
      rcases Bool.eq_false_or_eq_true ev.passPlatformFeeToUser with hps | hps <;>
      simp_all [platformFeeAmount]
  · intro h1 h2
    constructor
    · intro hty
      simp [platformFeeAmount, h1, h2, hty, jsNumOr_zero]
    · intro hty
      simp [platformFeeAmount, h1, h2, hty, jsNumOr_zero]

/-- Witness for C1 at a concrete event (price 500, flat platform fee 20 passed
to the user) with no tier selected and a 10% promo applied. -/
theorem pricing_breakdown_spec_witness :
    baseAmount (some ⟨"t", 500, false, false, none, none, true, true, none, some 20⟩) none
      = 500 ∧
    discountAmount (some ⟨"SAVE10", "percentage", 10, true⟩)
      (baseAmount (some ⟨"t", 500, false, false, none, none, true, true, none, some 20⟩) none)
      = 50 ∧
    platformFeeAmount (some ⟨"t", 500, false, false, none, none, true, true, none, some 20⟩)
      (subtotal (some ⟨"t", 500, false, false, none, none, true, true, none, some 20⟩) none
        (some ⟨"SAVE10", "percentage", 10, true⟩))
      = 20 := by
  obtain ⟨h1, h2, h3, h4, h5, h6, h7, h8, h9⟩ :=
    pricing_breakdown_spec ⟨"t", 500, false, false, none, none, true, true, none, some 20⟩
      none (some ⟨"SAVE10", "percentage", 10, true⟩)
  have hb : baseAmount (some ⟨"t", 500, false, false, none, none, true, true, none, some 20⟩) none
      = 500 := h2 (by simp [activePricing, strTruthy])
  refine ⟨hb, ?_, ?_⟩
  · have hd := h5 _ rfl rfl
    rw [hd, hb]
    norm_num
  · exact (h8 rfl rfl).2 (by simp)

/-- C2 counterexample: an event with `price = 100`, `hasSpecialPrices = false`,
no promo, but a flat platform fee of 10 passed to the user has
`totalAmount = 110 ≠ event.price`. -/
theorem totalAmount_ne_price_with_platform_fee :
    totalAmount (some ⟨"t", 100, false, false, none, none, true, true, none, some 10⟩)
      none none ≠ 100 := by
  norm_num [totalAmount, subtotal, baseAmount, discountAmount, platformFeeAmount,
    activePricing, strTruthy, jsNumOr]

/-- C2 amended: for every event with `hasSpecialPrices = false`, no promo
applied, no tier selected, a non-negative price, and the platform fee not
passed to the user (not both `hasPlatformFee` and `passPlatformFeeToUser`),
`totalAmount` equals `event.price`. -/
theorem totalAmount_eq_price (ev : VihayaEvent)
    (hsp : ev.hasSpecialPrices = false)
    (hfee : ¬(ev.hasPlatformFee = true ∧ ev.passPlatformFeeToUser = true))
    (hpr : 0 ≤ ev.price) :
    totalAmount (some ev) none none = ev.price := by
  have hb : baseAmount (some ev) none = ev.price := by
    simp [baseAmount, activePricing, strTruthy, jsNumOr_zero]
  have hsub : subtotal (some ev) none none = ev.price := by
    simp [subtotal, discountAmount, hb, max_eq_right hpr]
  have hpf : platformFeeAmount (some ev) (subtotal (some ev) none none) = 0 := by
    rcases Bool.eq_false_or_eq_true ev.hasPlatformFee with hpf | hpf <;>
      rcases Bool.eq_false_or_eq_true ev.passPlatformFeeToUser with hps | hps <;>
      simp_all [platformFeeAmount]
  unfold totalAmount
  rw [hpf, hsub, add_zero]

/-- Witness for the amended C2 at a concrete paid event with price 50. -/
theorem totalAmount_eq_price_witness :
    totalAmount (some ⟨"t", 50, false, false, none, none, false, false, none, none⟩)
      none none = 50 :=
  totalAmount_eq_price ⟨"t", 50, false, false, none, none, false, false, none, none⟩
    rfl (by simp) (by norm_num)

/-- C9: for every loaded event, tier selection and applied promo, `subtotal`
is non-negative (the `max` with 0 absorbs any over-large discount), and when
the event's `platformFee` is non-negative, `platformFeeAmount` and
`totalAmount` are non-negative as well. -/
theorem subtotal_total_nonneg (ev : VihayaEvent) (sel : Option String)
    (applied : Option PromoCode) :
    0 ≤ subtotal (some ev) sel applied ∧
    (0 ≤ ev.platformFee.getD 0 →
      0 ≤ platformFeeAmount (some ev) (subtotal (some ev) sel applied) ∧
      0 ≤ totalAmount (some ev) sel applied) := by
  have hsub : 0 ≤ subtotal (some ev) sel applied := le_max_left 0 _
  refine ⟨hsub, fun hfee => ?_⟩
  have hpf : 0 ≤ platformFeeAmount (some ev) (subtotal (some ev) sel applied) := by
    rw [platformFeeAmount_some]
    split
    · exact le_refl 0
    · split
      · rw [jsNumOr_zero]
        positivity
      · rw [jsNumOr_zero]
        exact hfee
  exact ⟨hpf, add_nonneg hsub hpf⟩

/-- Witness for C9 at a concrete event with an oversized flat discount. -/
theorem subtotal_total_nonneg_witness :
    0 ≤ subtotal (some ⟨"t", 100, false, false, none, none, true, true, none, some 5⟩)
      none (some ⟨"BIG", "flat", 1000, true⟩) ∧
    0 ≤ totalAmount (some ⟨"t", 100, false, false, none, none, true, true, none, some 5⟩)
      none (some ⟨"BIG", "flat", 1000, true⟩) := by
  obtain ⟨h1, h2⟩ :=
    subtotal_total_nonneg ⟨"t", 100, false, false, none, none, true, true, none, some 5⟩
      none (some ⟨"BIG", "flat", 1000, true⟩)
  exact ⟨h1, (h2 (by norm_num)).2⟩

/-- C3: with an event loaded and a non-empty entered code, applying a promo
looks the code up case-insensitively among the event's promos, accepting only
active entries; with no such match the user-visible error is set and any
previously applied promo is cleared; with a match that promo becomes the
applied promo and any prior error is cleared. -/
theorem handleApplyPromo_spec (st : FormState) (ev : VihayaEvent)
    (hev : st.event = some ev) (hcode : st.promoCode ≠ "") :
    ((∀ c ∈ ev.promoCodes.getD [],
        ¬(c.code.toUpper = st.promoCode.toUpper ∧ c.isActive = true)) →
      (handleApplyPromo st).appliedPromo = none ∧
      (handleApplyPromo st).error = some invalidPromoMsg) ∧
    (∀ c, (ev.promoCodes.getD []).find?
        (fun c => c.code.toUpper == st.promoCode.toUpper && c.isActive) = some c →
      (handleApplyPromo st).appliedPromo = some c ∧
      (handleApplyPromo st).error = none) := by
  constructor
  · intro hall
    have hfind : (ev.promoCodes.getD []).find?
        (fun c => c.code.toUpper == st.promoCode.toUpper && c.isActive) = none := by
      rw [List.find?_eq_none]
      intro x hx
      simp only [Bool.and_eq_true, beq_iff_eq, not_and]
      intro h1 h2
      exact hall x hx ⟨h1, h2⟩
    unfold handleApplyPromo
    rw [hev]
    simp [hcode, hfind]
  · intro c hc
    unfold handleApplyPromo
    rw [hev]
    simp [hcode, hc]

/-- Witness for C3: entering "NOPE" against an event with no promo list
clears the previously applied promo and sets the error message. -/
theorem handleApplyPromo_spec_witness :
    (handleApplyPromo
      ⟨some ⟨"t", 100, false, false, none, none, false, false, none, none⟩,
        "NOPE", some ⟨"OLD", "flat", 5, true⟩, none⟩).appliedPromo = none ∧
    (handleApplyPromo
      ⟨some ⟨"t", 100, false, false, none, none, false, false, none, none⟩,
        "NOPE", some ⟨"OLD", "flat", 5, true⟩, none⟩).error = some invalidPromoMsg :=
  (handleApplyPromo_spec
    ⟨some ⟨"t", 100, false, false, none, none, false, false, none, none⟩,
      "NOPE", some ⟨"OLD", "flat", 5, true⟩, none⟩
    ⟨"t", 100, false, false, none, none, false, false, none, none⟩
    rfl (by decide)).1 (by simp)

/-- C10: invoking the promo apply handler with no loaded event or an empty
entered code leaves the whole form state unchanged (in particular the applied
promo and the error message). -/
theorem handleApplyPromo_noop (st : FormState)
    (h : st.event = none ∨ st.promoCode = "") :
    handleApplyPromo st = st := by
  rcases h with h | h
  · unfold handleApplyPromo
    rw [h]
  · rcases hev : st.event with _ | ev
    · unfold handleApplyPromo
      rw [hev]
    · unfold handleApplyPromo
      rw [hev]
      simp [h]

/-- Witness for C10: an empty entered code retains the applied promo and
surfaces no error. -/
theorem handleApplyPromo_noop_witness :
    handleApplyPromo
      ⟨some ⟨"t", 100, false, false, none, none, false, false, none, none⟩,
        "", some ⟨"OLD", "flat", 5, true⟩, none⟩
      = ⟨some ⟨"t", 100, false, false, none, none, false, false, none, none⟩,
        "", some ⟨"OLD", "flat", 5, true⟩, none⟩ :=
  handleApplyPromo_noop
    ⟨some ⟨"t", 100, false, false, none, none, false, false, none, none⟩,
      "", some ⟨"OLD", "flat", 5, true⟩, none⟩
    (Or.inr rfl)

/-- C5: the submit control is disabled whenever a submission is in flight, and
also whenever the event has `hasSpecialPrices`, no tier is selected, and the
event is not free. -/
theorem submitDisabled_spec (submitting : Bool) (ev : VihayaEvent) (sel : Option String) :
    (submitting = true → submitDisabled submitting ev sel = true) ∧
    (ev.hasSpecialPrices = true → sel = none → ev.isFree = false →
      submitDisabled submitting ev sel = true) := by
  constructor
  · intro h
    simp [submitDisabled, h]
  · intro h1 h2 h3
    simp [submitDisabled, h1, h2, h3, strTruthy]

/-- Witness for C5: in-flight submission, and a special-priced paid event with
no tier selected, both disable the control. -/
theorem submitDisabled_spec_witness :
    submitDisabled true ⟨"t", 10, false, false, none, none, false, false, none, none⟩ none
      = true ∧
    submitDisabled false
      ⟨"t", 10, false, true, some [⟨"Student", 5⟩], none, false, false, none, none⟩ none
      = true :=
  ⟨(submitDisabled_spec true ⟨"t", 10, false, false, none, none, false, false, none, none⟩
      none).1 rfl,
   (submitDisabled_spec false
      ⟨"t", 10, false, true, some [⟨"Student", 5⟩], none, false, false, none, none⟩
      none).2 rfl rfl rfl⟩

/-- C8: adding a team member appends exactly one blank entry at the end,
leaving every existing member and their order unchanged; removing by a valid
index deletes exactly that entry, shifting the later ones down by one. -/
theorem teamMembers_add_remove_spec (members : Option (List TeamMember)) :
    (handleAddTeamMember members).length = (members.getD []).length + 1 ∧
    (∀ j, j < (members.getD []).length →
      (handleAddTeamMember members)[j]? = (members.getD [])[j]?) ∧
    (handleAddTeamMember members)[(members.getD []).length]? = some ⟨"", "", ""⟩ ∧
    (∀ i, i < (members.getD []).length →
      (handleRemoveTeamMember members i).length = (members.getD []).length - 1 ∧
      (∀ j, j < i → (handleRemoveTeamMember members i)[j]? = (members.getD [])[j]?) ∧
      (∀ j, i ≤ j → (handleRemoveTeamMember members i)[j]? = (members.getD [])[j + 1]?)) := by
  refine ⟨?_, ?_, ?_, ?_⟩
  · simp [handleAddTeamMember]
  · intro j hj
    simp [handleAddTeamMember, List.getElem?_append, hj]
  · simp [handleAddTeamMember]
  · intro i hi
    refine ⟨?_, ?_, ?_⟩
    · simp [handleRemoveTeamMember, List.length_eraseIdx, hi]
    · intro j hj
      simp [handleRemoveTeamMember, List.getElem?_eraseIdx_of_lt, hj]
    · intro j hj
      simp [handleRemoveTeamMember, List.getElem?_eraseIdx_of_ge, hj]

/-- Witness for C8 on a concrete two-member roster: removing index 0 leaves
exactly the second member. -/
theorem teamMembers_add_remove_spec_witness :
    (handleRemoveTeamMember (some [⟨"a", "a", "a"⟩, ⟨"b", "b", "b"⟩]) 0).length = 1 ∧
    (handleRemoveTeamMember (some [⟨"a", "a", "a"⟩, ⟨"b", "b", "b"⟩]) 0)[0]?
      = some ⟨"b", "b", "b"⟩ := by
  obtain ⟨h1, h2, h3, h4⟩ :=
    teamMembers_add_remove_spec (some [⟨"a", "a", "a"⟩, ⟨"b", "b", "b"⟩])
  obtain ⟨r1, r2, r3⟩ := h4 0 (by decide)
  refine ⟨by simpa using r1, ?_⟩
  have := r3 0 (Nat.le_refl 0)
  simpa using this

/-- C6 counterexample: with configured key "k" and the caller extra header
`x-api-key: evil`, the request is sent with `x-api-key: evil`, not the
configured key — the extra headers are spread after the SDK defaults and win
even for the API key header. -/
theorem apiKey_header_overridden :
    headerValue (requestHeaders "k" [("x-api-key", "evil")] []) "x-api-key" ≠ some "k" ∧
    headerValue (requestHeaders "k" [("x-api-key", "evil")] []) "x-api-key" = some "evil" := by
  decide

/-- C6 amended: every request carries an `x-api-key` header and a
`Content-Type` header; they hold the configured API key and
`application/json` whenever the caller supplies no header of the same name;
caller-supplied extra headers are merged last and win on every conflict with
the SDK defaults, including the API key header. -/
theorem requestHeaders_spec (apiKey : String) (extra opts : List (String × String)) :
    (headerValue (requestHeaders apiKey extra opts) "x-api-key").isSome = true ∧
    (headerValue (requestHeaders apiKey extra opts) "Content-Type").isSome = true ∧
    ((∀ p ∈ extra ++ opts, p.1 ≠ "x-api-key") →
      headerValue (requestHeaders apiKey extra opts) "x-api-key" = some apiKey) ∧
    ((∀ p ∈ extra ++ opts, p.1 ≠ "Content-Type") →
      headerValue (requestHeaders apiKey extra opts) "Content-Type"
        = some "application/json") ∧
    (∀ k, (headerValue (extra ++ opts) k).isSome = true →
      headerValue (requestHeaders apiKey extra opts) k = headerValue (extra ++ opts) k) := by
  have hkey : headerValue [("x-api-key", apiKey), ("Content-Type", "application/json")]
      "x-api-key" = some apiKey := by
    simp [headerValue, List.find?]
  have hct : headerValue [("x-api-key", apiKey), ("Content-Type", "application/json")]
      "Content-Type" = some "application/json" := by
    simp [headerValue, List.find?]
  have hreq : ∀ k, headerValue (requestHeaders apiKey extra opts) k
      = (headerValue (extra ++ opts) k).or
          (headerValue [("x-api-key", apiKey), ("Content-Type", "application/json")] k) := by
    intro k
    unfold requestHeaders
    rw [List.append_assoc, headerValue_append]
  refine ⟨?_, ?_, ?_, ?_, ?_⟩
  · rw [hreq]
    cases h : headerValue (extra ++ opts) "x-api-key" <;> simp [h, hkey]
  · rw [hreq]
    cases h : headerValue (extra ++ opts) "Content-Type" <;> simp [h, hct]
  · intro h
    rw [hreq, headerValue_eq_none _ _ h, hkey]
    rfl
  · intro h
    rw [hreq, headerValue_eq_none _ _ h, hct]
    rfl
  · intro k hk
    rw [hreq]
    cases h : headerValue (extra ++ opts) k
    · rw [h] at hk
      cases hk
    · rfl

/-- Witness for the amended C6: with a non-conflicting caller header the
configured key and the JSON content type are sent, and the caller header
itself is sent with its own value. -/
theorem requestHeaders_spec_witness :
    headerValue (requestHeaders "k" [("X-Custom", "1")] []) "x-api-key" = some "k" ∧
    headerValue (requestHeaders "k" [("X-Custom", "1")] []) "Content-Type"
      = some "application/json" ∧
    headerValue (requestHeaders "k" [("X-Custom", "1")] []) "X-Custom" = some "1" := by
  obtain ⟨h1, h2, h3, h4, h5⟩ := requestHeaders_spec "k" [("X-Custom", "1")] []
  exact ⟨h3 (by decide), h4 (by decide), by
    rw [h5 "X-Custom" (by decide)]
    decide⟩

/-- C7 counterexample: a failed response whose decoded body has the error
field present but empty produces the generic message, not the (empty)
server-reported error field — the fallback also triggers on an empty string,
not only when the field is absent. -/
theorem request_fallback_on_empty_error_field :
    request ⟨false, 400, ⟨some "", "r"⟩⟩
      = .error ⟨genericApiErrorMsg, some 400, some ⟨some "", "r"⟩⟩ ∧
    genericApiErrorMsg ≠ "" := by
  exact ⟨rfl, by decide⟩

/-- C7 amended: on an unsuccessful response the call fails with an API error
whose message is the server-reported error field when it is present and
non-empty (falling back to the generic message when it is absent or empty)
and which carries the HTTP status and the raw decoded body; the form's error
callback receives that same message string. -/
theorem request_error_spec (resp : HttpResponse) (h : resp.ok = false) :
    ∃ e, request resp = .error e ∧
      e.message = jsStrOr resp.body.error genericApiErrorMsg ∧
      (∀ s, resp.body.error = some s → s ≠ "" → e.message = s) ∧
      (resp.body.error = none → e.message = genericApiErrorMsg) ∧
      e.status = some resp.status ∧
      e.data = some resp.body ∧
      formErrorMessage e = e.message := by
  refine ⟨⟨jsStrOr resp.body.error genericApiErrorMsg, some resp.status, some resp.body⟩,
    ?_, rfl, ?_, ?_, rfl, rfl, rfl⟩
  · simp [request, h]
  · intro s hs hne
    simp [jsStrOr, hs, hne]
  · intro hs
    simp [jsStrOr, hs]

/-- Witness for the amended C7: HTTP 400 with body error "Invalid email"
throws a `VihayaError` whose message — and hence the form's `onError`
argument — is exactly "Invalid email", with status 400 and the body kept. -/
theorem request_error_spec_witness :
    ∃ e, request ⟨false, 400, ⟨some "Invalid email", ""⟩⟩ = .error e ∧
      e.message = "Invalid email" ∧
      e.status = some 400 ∧
      formErrorMessage e = "Invalid email" := by
  obtain ⟨e, h1, h2, h3, h4, h5, h6, h7⟩ :=
    request_error_spec ⟨false, 400, ⟨some "Invalid email", ""⟩⟩ rfl
  have hm : e.message = "Invalid email" := h3 "Invalid email" rfl (by decide)
  exact ⟨e, h1, hm, h5, by rw [h7, hm]⟩

/-- C4: when the first register call returns an order id (and the checkout
script is loaded), the checkout widget is opened with the result's key,
amount, currency and order id; the widget's success handler issues a second
register call carrying the payment id, order id and original registration id;
and `onSuccess(registrationId)` fires exactly once, strictly after that
confirmation call and only when it resolves successfully — never when it
fails. -/
theorem handleSubmit_payment_flow (r : RegisterResult) (payResp : PaymentResponse)
    (confirmResult : Except VihayaError ApiBody) (oid : String)
    (h : r.orderId = some oid) :
    (handleSubmitTrace (.ok r) true payResp confirmResult)[1]?
      = some (.openCheckout r.key r.amount r.currency oid) ∧
    (handleSubmitTrace (.ok r) true payResp confirmResult)[2]?
      = some (.confirmCall payResp.razorpay_payment_id payResp.razorpay_order_id
          r.registrationId) ∧
    (∀ b, confirmResult = .ok b →
      handleSubmitTrace (.ok r) true payResp confirmResult
        = [.registerCall, .openCheckout r.key r.amount r.currency oid,
           .confirmCall payResp.razorpay_payment_id payResp.razorpay_order_id
             r.registrationId,
           .successCb r.registrationId]) ∧
    ((handleSubmitTrace (.ok r) true payResp confirmResult).count
        (.successCb r.registrationId) ≤ 1) ∧
    (∀ e, confirmResult = .error e → ∀ s,
      SubmitEvent.successCb s ∉ handleSubmitTrace (.ok r) true payResp confirmResult) := by
  rcases confirmResult with e | b
  · refine ⟨?_, ?_, ?_, ?_, ?_⟩
    · simp [handleSubmitTrace, h]
    · simp [handleSubmitTrace, h]
    · intro b hb
      cases hb
    · simp [handleSubmitTrace, h, List.count_cons]
    · intro e' he' s
      simp [handleSubmitTrace, h]
  · refine ⟨?_, ?_, ?_, ?_, ?_⟩
    · simp [handleSubmitTrace, h]
    · simp [handleSubmitTrace, h]
    · intro b' hb
      simp [handleSubmitTrace, h]
    · simp [handleSubmitTrace, h, List.count_cons]
    · intro e he
      cases he

/-- Witness for C4 at the spec's scenario: order "order_1", amount 90000, a
successful confirmation. -/
theorem handleSubmit_payment_flow_witness :
    handleSubmitTrace (.ok ⟨"reg1", some "order_1", 90000, "INR", "k"⟩) true
      ⟨"pay_1", "order_1"⟩ (.ok ⟨none, ""⟩)
      = [.registerCall, .openCheckout "k" 90000 "INR" "order_1",
         .confirmCall "pay_1" "order_1" "reg1", .successCb "reg1"] :=
  (handleSubmit_payment_flow ⟨"reg1", some "order_1", 90000, "INR", "k"⟩
    ⟨"pay_1", "order_1"⟩ (.ok ⟨none, ""⟩) "order_1" rfl).2.2.1 ⟨none, ""⟩ rfl
